import Mathlib

/-!
Verification of the L.I.N.N.Y. voice assistant (src/linny_app.py) against its
natural-language specification.  Python code is shallowly embedded: pure
fragments become Lean functions, stateful fragments become explicit state
passing or event traces, `try/except` blocks become `Option`/outcome
parameters (an exception raised by an external call is an input of the model,
and a handler that swallows it makes the embedded function total).
External effects (HTTP calls, TTS, OS actions, the smart bulb) are recorded
as explicit events in a trace, and their outcomes are inputs of the model.
-/

namespace Linny

/-! ## Python string semantics helpers -/

/-- Whether the first list is a prefix of the second (character lists).
Structural recursion, so it reduces definitionally. -/
def listPrefixOf : List Char → List Char → Bool
  | [], _ => true
  | _ :: _, [] => false
  | a :: as, b :: bs => a == b && listPrefixOf as bs

/-- Whether the first list occurs contiguously inside the second. -/
def listInfixOf : List Char → List Char → Bool
  | needle, [] => needle.isEmpty
  | needle, c :: t => listPrefixOf needle (c :: t) || listInfixOf needle t

/-- Python `needle in haystack` (substring membership; Python treats the
empty string as a substring of everything, and `listPrefixOf [] _` is
true). -/
def strContains (haystack needle : String) : Bool :=
  listInfixOf needle.data haystack.data

/-- Python `any(w in t for w in ws)`. -/
def anyIn (ws : List String) (t : String) : Bool :=
  ws.any (fun w => strContains t w)

/-- Python `s.lower()` (ASCII lowering, as `str.lower` acts on this
ASCII-only source). -/
def pyLower (s : String) : String :=
  String.mk (s.data.map Char.toLower)

/-- Python `s.startswith(pre)`. -/
def pyStartsWith (s pre : String) : Bool :=
  listPrefixOf pre.data s.data

/-- Split at the first occurrence of `pat`: the characters before it and
the characters after it. -/
def splitOnceAux (pat : List Char) : List Char → Option (List Char × List Char)
  | [] => none
  | c :: t =>
    if listPrefixOf pat (c :: t) then some ([], (c :: t).drop pat.length)
    else
      match splitOnceAux pat t with
      | some (pre, post) => some (c :: pre, post)
      | none => none

/-- Python `s.split(pat, 1)` for a non-empty `pat` occurring in `s`: the
part before the first occurrence and everything after it. -/
def splitOnce (s pat : String) : Option (String × String) :=
  (splitOnceAux pat.data s.data).map (fun p => (String.mk p.1, String.mk p.2))

/-- Leading run of digits of a character list. -/
def digitsTaken : List Char → List Char
  | [] => []
  | c :: cs => if c.isDigit then c :: digitsTaken cs else []

/-- First maximal run of digits, as Python `re.search(r'(\d+)', s)` finds it. -/
def firstDigitRun : List Char → Option (List Char)
  | [] => none
  | c :: cs => if c.isDigit then some (c :: digitsTaken cs) else firstDigitRun cs

/-- Decimal value of a digit list, as Python `int` reads the matched group. -/
def natOfDigits (ds : List Char) : Nat :=
  ds.foldl (fun n c => n * 10 + (c.toNat - 48)) 0

/-- Python `int(re.search(r'(\d+)', s).group(1))`, `none` when no digit occurs. -/
def firstNat (s : String) : Option Nat :=
  (firstDigitRun s.data).map natOfDigits

/-! ## LightManager (src/linny_app.py lines 237-257)

`set_brightness` checks the connection and the light module, clamps the
level with `max(0, min(100, int(level)))`, and issues one bulb command with
the clamped value; an exception from the send is caught and turns the
result into `False`.  Commands actually sent to the bulb are recorded. -/

/-- A command the manager sends to the bulb hardware. -/
inductive BulbCmd where
  | setBrightness (n : Int)
deriving DecidableEq

/-- Embedding of `LightManager.set_brightness`.  `connected` is the
`_ensure_connected` check, `hasModule` the `_get_light_module` check, and
`sendOk` tells whether the `run_until_complete` send raises (the exception
is caught; the command was already issued with the clamped level). -/
def set_brightness (connected hasModule sendOk : Bool) (level : Int) :
    Bool × List BulbCmd :=
  if !connected then (false, [])
  else if !hasModule then (false, [])
  else
    let clamped : Int := max 0 (min 100 level)
    if sendOk then (true, [BulbCmd.setBrightness clamped])
    else (false, [BulbCmd.setBrightness clamped])

/-! ## LinnyAssistant.toggle_mute (src/linny_app.py lines 1279-1284)

`self.is_muted = not self.is_muted; return self.is_muted`: the result is
the pair (new flag value, returned value). -/

/-- Embedding of `LinnyAssistant.toggle_mute`: first component the new
`is_muted` flag, second the value returned to the caller. -/
def toggle_mute (is_muted : Bool) : Bool × Bool :=
  let new := !is_muted
  (new, new)

/-! ## VoiceEngine (src/linny_app.py lines 537-615)

`speak` runs its body on a worker thread; the body is a straight-line
`try/except/finally` whose only branch points are whether `engine.say`,
`engine.runAndWait` or the completion callback raise.  We embed the thread
body as the event trace it produces, with those three outcomes as inputs.
`stop` is `_interrupt = True; try engine.stop() except log; finally
is_speaking = False`, embedded as a total state transformer (every
exception of `engine.stop` is caught, so no input makes it raise). -/

/-- Events of the `speak` worker-thread body, in program order. -/
inductive SpeakEv where
  | setInterrupt (b : Bool)
  | setSpeaking (b : Bool)
  | say
  | runAndWait
  | logError
  | runCallback
deriving DecidableEq

/-- Embedding of the `_thread` body of `VoiceEngine.speak`.  `sayOk` and
`waitOk` tell whether `engine.say` and `engine.runAndWait` complete without
raising; `hasCb` whether a callback was supplied, `cbOk` whether it
completes without raising (a callback error is caught and logged). -/
def speakThread (sayOk waitOk hasCb cbOk : Bool) : List SpeakEv :=
  let tryPart : List SpeakEv :=
    [SpeakEv.setInterrupt false, SpeakEv.setSpeaking true, SpeakEv.say] ++
      (if sayOk then
        (if waitOk then [SpeakEv.runAndWait] else [SpeakEv.runAndWait, SpeakEv.logError])
      else [SpeakEv.logError])
  let finallyPart : List SpeakEv :=
    SpeakEv.setSpeaking false ::
      (if hasCb then
        (if cbOk then [SpeakEv.runCallback] else [SpeakEv.runCallback, SpeakEv.logError])
      else [])
  tryPart ++ finallyPart

/-- Whether an event is an assignment to `is_speaking`. -/
def isSetSpeaking : SpeakEv → Bool
  | SpeakEv.setSpeaking _ => true
  | _ => false

/-- The mutable state `VoiceEngine.stop` touches. -/
structure VoiceState where
  is_speaking : Bool
  interruptFlag : Bool
deriving DecidableEq

/-- Embedding of `VoiceEngine.stop`.  `engineStopOk` tells whether
`engine.stop()` raises; the exception is caught and logged, and the
`finally` clears `is_speaking` either way, so the resulting state does not
depend on it and the function is total (no exception escapes). -/
def stop (engineStopOk : Bool) (s : VoiceState) : VoiceState :=
  let s1 : VoiceState := { s with interruptFlag := true }
  let s2 : VoiceState := s1
  let _ := engineStopOk
  { s2 with is_speaking := false }

/-! ## BrainManager (src/linny_app.py lines 298-399)

`ask` cascades: search-intent queries go to Perplexity first, then Groq,
then Gemini, then Perplexity again as a last resort, then a fixed offline
string.  Each backend interaction sits in its own `try/except` (or, for
Perplexity, inside `_ask_perplexity`, which catches everything and returns
`None`), so a backend exception is an input of the model, never an output.
The model counts how many calls each backend receives; the outcome of the
i-th call to a backend is an input function of the call index and the
system preamble passed to it. -/

/-- Outcome of one remote backend call: `Except.ok` is a returned answer,
`Except.error` an exception (network, auth, quota, malformed response). -/
abbrev CallOutcome := Except Unit String

/-- How many calls each backend has received within one `ask` invocation. -/
structure Counts where
  p : Nat
  g : Nat
  m : Nat
deriving DecidableEq

/-- Configuration and behaviour of the three providers: the key/client
presence flags set up by `__init__`/`_init_providers`, and the outcome of
each successive call (index, system preamble) as decided by the network. -/
structure BrainEnv where
  perplexityKey : Bool
  groqClient : Bool
  geminiModel : Bool
  perplexityOutcome : Nat → String → CallOutcome
  groqOutcome : Nat → String → CallOutcome
  geminiOutcome : Nat → String → CallOutcome

/-- The `try/except` wrapper around one backend call: an answer passes
through, an exception is caught and logged, yielding `none`. -/
def tryBackend (out : CallOutcome) : Option String :=
  match out with
  | Except.ok s => some s
  | Except.error _ => none

/-- The per-request system preamble built at the top of `ask`. -/
def systemPrompt (userName language : String) : String :=
  "You are Linny, a helpful AI assistant. User: " ++ userName ++
    ". Language: " ++ language ++ ". Be concise (1-2 sentences)."

/-- Embedding of `BrainManager._is_search`. -/
def is_search (query : String) : Bool :=
  anyIn ["search", "price", "news", "latest", "who", "what", "how"] (pyLower query)

/-- Embedding of `BrainManager._ask_perplexity`: `None` without an API key
(no call made), otherwise one HTTP call whose exception, if any, is caught
inside the function. -/
def ask_perplexity (env : BrainEnv) (system : String) (c : Counts) :
    Option String × Counts :=
  if env.perplexityKey then
    (tryBackend (env.perplexityOutcome c.p system), { c with p := c.p + 1 })
  else (none, c)

/-- The Groq step of `ask`: skipped without a client, otherwise one call
whose exception is caught at the call site. -/
def askGroq (env : BrainEnv) (system : String) (c : Counts) :
    Option String × Counts :=
  if env.groqClient then
    (tryBackend (env.groqOutcome c.g system), { c with g := c.g + 1 })
  else (none, c)

/-- The Gemini step of `ask`: skipped without a model, otherwise one call
whose exception is caught at the call site. -/
def askGemini (env : BrainEnv) (system : String) (c : Counts) :
    Option String × Counts :=
  if env.geminiModel then
    (tryBackend (env.geminiOutcome c.m system), { c with m := c.m + 1 })
  else (none, c)

/-- The fixed fallback string returned when every step declined. -/
def offlineMsg : String := "All AI systems are offline. Please check your API keys."

/-- Embedding of `BrainManager.ask`.  Returns the answer given to the
caller together with the number of calls each backend received.  The
function is total: every backend exception is caught at its own step, so
`ask` never raises to its caller (there is no error case in the result
type because no uncaught path exists in the source). -/
def ask (env : BrainEnv) (query userName language : String) : String × Counts :=
  let system := systemPrompt userName language
  let c0 : Counts := ⟨0, 0, 0⟩
  let searchStep :=
    if is_search query then ask_perplexity env system c0 else (none, c0)
  match searchStep with
  | (some r, c) => (r, c)
  | (none, c1) =>
    match askGroq env system c1 with
    | (some r, c) => (r, c)
    | (none, c2) =>
      match askGemini env system c2 with
      | (some r, c) => (r, c)
      | (none, c3) =>
        match ask_perplexity env system c3 with
        | (some r, c) => (r, c)
        | (none, c4) => (offlineMsg, c4)

/-! ## LinnyAssistant dispatcher (src/linny_app.py lines 766-1125)

`execute_command` is a first-match-wins chain of keyword predicates over
the lowercased text.  We embed it as a function from the recognized text
(and an environment of collaborator outcomes) to the list of external
actions it performs, in order.  `_launch_app` (lines 766-835) is embedded
separately since claim C8 is about it. -/

/-- Completion callback attached to a `speak` call: none, or the
`_post_launch_unmute` closure of `_launch_app`. -/
inductive Cb where
  | noCb
  | postLaunchUnmute
deriving DecidableEq

/-- One externally visible action of the dispatcher, in program order.
`speak` carries its callback; launch attempts, bulb commands, OS actions,
media keys, collaborator queries and the inference fallback are distinct
constructors so a trace shows exactly which collaborators were touched. -/
inductive Action where
  | speak (s : String) (cb : Cb)
  | setMuted (b : Bool)
  | lightsTurnOn
  | lightsTurnOff
  | lightsSetMode (m : String)
  | lightsSetBrightness (n : Nat)
  | lightsSetColor (c : String)
  | osShutdown
  | osReboot
  | osLock
  | osSleep
  | mediaKey (k : String)
  | openUrl (t : String)
  | openFile (t : String)
  | shellRun (t : String)
  | calendarGetSchedule (q : String)
  | weatherGet
  | timerScheduled (mins : Nat)
  | pressHotkey (k : String)
  | takeScreenshot
  | playOnYoutube (song : String)
  | toggleMuteAct
  | trayUpdate (s : String)
  | brainAsk (q : String)
  | sleepCooldown
deriving DecidableEq

/-- Outcomes of the collaborators the dispatcher consults, and the values
the environment supplies (current time and date strings, calendar and
weather summaries, the inference answer, configured app aliases, and
whether each fallible external call raises). -/
structure DispatchEnv where
  timeStr : String
  dateStr : String
  scheduleMsg : String
  weatherMsg : String
  brainResponse : String
  setBrightnessOk : Bool
  setColorOk : Bool
  screenshotOk : Bool
  youtubeOk : Bool
  appAliases : List (String × String)
  launchOk : Bool

/-- Python `self.config.get("app_aliases", {}).get(k, k)`. -/
def lookupAlias (aliases : List (String × String)) (k : String) : String :=
  match aliases.find? (fun p => p.1 == k) with
  | some p => p.2
  | none => k

/-- The wake-word and phonetic-alias list of `execute_command`. -/
def wake_words : List String :=
  ["linny", "lenny", "lini", "leni", "linnie", "lynny", "lanny", "leave me", "lily",
   "mini", "minny", "minnie", "mimi",
   "dini", "dinny",
   "nini", "ninny", "ni",
   "ginny", "hinny", "finny", "vinny", "winny", "pinny",
   "lhinny",
   "hey linny", "ok linny", "okay linny", "hi linny", "hello linny", "hey"]

/-- The body of the `_post_launch_unmute` callback of `_launch_app`: sleep
a fixed 2 second cooldown, then clear the mute flag.  It runs only when
`VoiceEngine.speak` invokes the completion callback after speech ends. -/
def post_launch_unmute : List Action := [Action.sleepCooldown, Action.setMuted false]

/-- Embedding of `LinnyAssistant._launch_app`.  The trace records, in
order: setting `is_muted` (before the `try` block, hence before any launch
attempt or speech), the launch attempt taken by the three-case logic, and
the single `speak` call, whose callback is always `_post_launch_unmute`.
`env.launchOk` tells whether the launch call raises; the handler catches
it and speaks the apology, again with the unmuting callback. -/
def launchApp (env : DispatchEnv) (app_name : String) : List Action :=
  let app_name_lower := pyLower app_name
  let target := lookupAlias env.appAliases app_name_lower
  let opening := Action.speak ("Opening " ++ app_name ++ ".") Cb.postLaunchUnmute
  let failed := Action.speak ("Couldn\'t find " ++ app_name ++ ".") Cb.postLaunchUnmute
  Action.setMuted true ::
    (if pyStartsWith target "http://" || pyStartsWith target "https://" ||
        pyStartsWith target "www" then
      if env.launchOk then [Action.openUrl target, opening]
      else [Action.openUrl target, failed]
    else
      let has_args := strContains target "--" || strContains target "/" ||
        strContains target " -"
      if !has_args then
        if env.launchOk then [Action.openFile target, opening]
        else [Action.openFile target, failed]
      else
        if env.launchOk then [Action.shellRun target, opening]
        else [Action.shellRun target, failed])

/-- Embedding of `LinnyAssistant._start_timer` on the lowercased text. -/
def start_timer (t : String) : List Action :=
  match firstNat t with
  | some m =>
    [Action.timerScheduled m,
     Action.speak ("Timer set for " ++ toString m ++ " minutes.") Cb.noCb]
  | none => [Action.speak "I couldn\'t understand the duration." Cb.noCb]

/-- Python `for w in wake_words: s = s.replace(w, "").strip()`. -/
def stripWakeWords (s : String) : String :=
  wake_words.foldl (fun acc w => (acc.replace w "").trim) s

/-- Priorities 5 to 12 of `execute_command`: time, date, calendar, weather,
timer, clip and screenshot, YouTube, the stop-listening command, and the
inference fallback. -/
def executeCommandTimeOn (env : DispatchEnv) (text text_lower : String) : List Action :=
  -- PRIORITY 5: TIME
  if anyIn ["time", "oras", "what time"] text_lower then
    [Action.speak ("It is " ++ env.timeStr ++ ".") Cb.noCb]
  -- PRIORITY 6: DATE
  else if anyIn ["date", "day", "what day", "what is today"] text_lower then
    [Action.speak ("Today is " ++ env.dateStr ++ ".") Cb.noCb]
  -- PRIORITY 7: CALENDAR
  else if anyIn ["schedule", "calendar", "agenda"] text_lower then
    [Action.calendarGetSchedule text, Action.speak env.scheduleMsg Cb.noCb]
  -- PRIORITY 8: WEATHER
  else if anyIn ["weather", "panahon"] text_lower then
    [Action.weatherGet, Action.speak env.weatherMsg Cb.noCb]
  -- PRIORITY 9: TIMER
  else if anyIn ["timer", "set timer", "pomodoro", "set a timer"] text_lower then
    start_timer text_lower
  -- PRIORITY 10: CLIP and SCREENSHOT
  else if anyIn ["clip that", "record that"] text_lower then
    [Action.pressHotkey "alt+f10", Action.speak "Clipped." Cb.noCb]
  else if anyIn ["screenshot", "take a screenshot", "capture screen",
      "take screenshot"] text_lower then
    if env.screenshotOk then
      [Action.takeScreenshot, Action.speak "Fullscreen screenshot taken." Cb.noCb]
    else
      [Action.takeScreenshot, Action.speak "I couldn\'t take the screenshot." Cb.noCb]
  else
    -- PRIORITY 11: PLAY ON YOUTUBE (falls through when the song is too short)
    let ytSong : Option String :=
      if strContains text_lower "play" && strContains text_lower "youtube" then
        let song := stripWakeWords
          (((text_lower.replace "play" "").replace "on youtube" "").trim)
        if song != "" && song.length > 2 then some song else none
      else none
    match ytSong with
    | some song =>
      if env.youtubeOk then
        [Action.playOnYoutube song, Action.speak ("Playing " ++ song ++ ".") Cb.noCb]
      else [Action.speak "YouTube failed." Cb.noCb]
    | none =>
      if strContains text_lower "stop listening" then
        [Action.speak "Stopping listening. Goodbye!" Cb.noCb, Action.toggleMuteAct,
         Action.trayUpdate "muted"]
      else
        -- PRIORITY 12: AI BRAIN (FALLBACK)
        [Action.brainAsk text, Action.speak env.brainResponse Cb.noCb]

/-- Tail of `execute_command` from the app-launcher priority on (priorities
4 to 12), split out so the brightness and color fall-through cases above it
stay readable.  `text` is the original recognized text, `text_lower` its
lowercase form. -/
def executeCommandTail (env : DispatchEnv) (text text_lower : String) : List Action :=
  -- PRIORITY 4: APP LAUNCHER
  let appName : Option String :=
    match ["open", "launch", "start", "Accio"].find?
        (fun v => strContains text_lower v) with
    | some v =>
      match splitOnce text_lower v with
      | some (_, after) => some after.trim
      | none => none
    | none => none
  match appName with
  | some s =>
    if s != "" then launchApp env (stripWakeWords s)
    else executeCommandTimeOn env text text_lower
  | none => executeCommandTimeOn env text text_lower

/-- Embedding of `LinnyAssistant.execute_command`: the ordered list of
external actions performed for recognized text `text`, given collaborator
outcomes `env`.  An empty trace means the wake-word gate rejected the text
(the function returns with no action). -/
def executeCommand (env : DispatchEnv) (text : String) : List Action :=
  let text_lower := pyLower text
  if !(anyIn wake_words text_lower) then []
  -- PRIORITY 1: SYSTEM COMMANDS
  else if anyIn ["shutdown", "shut down"] text_lower then
    [Action.lightsTurnOff, Action.speak "Shutting down the System." Cb.noCb,
     Action.osShutdown]
  else if anyIn ["reboot", "restart", "Reboot", "Restart"] text_lower then
    [Action.speak "Rebooting the System." Cb.noCb, Action.osReboot]
  else if strContains text_lower "lock" && anyIn ["computer", "pc"] text_lower then
    [Action.speak "Locking the System." Cb.noCb, Action.osLock]
  else if strContains text_lower "sleep" && anyIn ["computer", "pc"] text_lower then
    [Action.speak "Putting the System to sleep." Cb.noCb, Action.osSleep]
  -- PRIORITY 2: MEDIA CONTROLS
  else if anyIn ["resume", "unpause", "continue", "play music"] text_lower then
    [Action.mediaKey "playpause", Action.speak "Playing." Cb.noCb]
  else if anyIn ["pause", "stop music"] text_lower then
    [Action.mediaKey "playpause", Action.speak "Paused." Cb.noCb]
  else if anyIn ["next", "skip"] text_lower then
    [Action.mediaKey "nexttrack", Action.speak "Next." Cb.noCb]
  else if anyIn ["volume up", "louder"] text_lower then
    [Action.mediaKey "volumeup", Action.mediaKey "volumeup",
     Action.speak "Volume up." Cb.noCb]
  else if anyIn ["volume down", "softer"] text_lower then
    [Action.mediaKey "volumedown", Action.mediaKey "volumedown",
     Action.speak "Volume down." Cb.noCb]
  else if strContains text_lower "mute" && !(strContains text_lower "unmute") then
    [Action.mediaKey "volumemute", Action.speak "Muted." Cb.noCb]
  else
    -- PRIORITY 3: SMART LIGHT CONTROLS (brightness falls through without a number)
    let brightnessLevel : Option Nat :=
      if (strContains text_lower "lights" || strContains text_lower "brightness") &&
          (strContains text_lower "%" || strContains text_lower "percent" ||
            strContains text_lower "to") then
        firstNat text_lower
      else none
    match brightnessLevel with
    | some level =>
      Action.lightsSetBrightness level ::
        (if env.setBrightnessOk then
          [Action.speak ("Lights set to " ++ toString level ++ " percent.") Cb.noCb]
        else [Action.speak "I couldn\'t set the brightness." Cb.noCb])
    | none =>
      let colorHit : Option String :=
        if strContains text_lower "color" && strContains text_lower "lights" then
          ["red", "blue", "violet", "green", "warm"].find?
            (fun c => strContains text_lower c)
        else none
      match colorHit with
      | some c =>
        Action.lightsSetColor c ::
          (if env.setColorOk then
            [Action.speak ("Lights changed to " ++ c ++ ".") Cb.noCb]
          else [Action.speak ("I couldn\'t change the color to " ++ c ++ ".") Cb.noCb])
      | none =>
        if anyIn ["turn on lights", "lights on", "turn on the lights", "turn on bulb",
            "bulb on", "turn on the bulb", "buksan ilaw", "buksan ang ilaw"]
            text_lower then
          [Action.lightsTurnOn, Action.speak "Lights turned on." Cb.noCb]
        else if anyIn ["turn off lights", "lights off", "turn off the lights",
            "turn off bulb", "bulb off", "turn off the bulb", "patayin ilaw",
            "patayin ang ilaw", "patay ilaw"] text_lower then
          [Action.lightsTurnOff, Action.speak "Lights turned off." Cb.noCb]
        else if strContains text_lower "focus mode" || strContains text_lower "focus" then
          [Action.lightsSetMode "focus", Action.speak "Focus mode activated." Cb.noCb]
        else if strContains text_lower "movie mode" || strContains text_lower "movie" then
          [Action.lightsSetMode "movie", Action.speak "Movie mode activated." Cb.noCb]
        else if strContains text_lower "gaming mode" || strContains text_lower "gaming" ||
            strContains text_lower "game mode" then
          [Action.lightsSetMode "gaming", Action.speak "Gaming mode activated." Cb.noCb]
        else executeCommandTail env text text_lower

/-! ## LinnyAssistant._listen_loop (src/linny_app.py lines 1127-1215)

One iteration of the immortal listening loop, embedded as the event trace
it produces.  The loop first spin-waits (`while self.voice.is_speaking or
self.is_muted: time.sleep(0.1)`), so we feed it the sequence of flag pairs
`(is_speaking, is_muted)` it observes, one per read; it proceeds past the
gate only upon reading a pair where both are false.  After a successful
capture it re-reads the flags once (`postSpeaking`, `postMuted`) and
discards the audio if either is true, without recognizing or dispatching. -/

/-- Result of `recognizer.listen` in one iteration. -/
inductive CapResult where
  | timeout
  | unknownValue
  | requestError
  | otherError
  | audio
deriving DecidableEq

/-- Result of the recognition step (`recognize_google`, with the Tagalog
retry folded in: `ok` when either language attempt returns text). -/
inductive RecogResult where
  | ok (text : String)
  | bothFail
  | requestError
  | otherError
deriving DecidableEq

/-- Events of one loop iteration. -/
inductive LoopEv where
  | poll
  | reopenSource (ok : Bool)
  | capture
  | discardAudio
  | recognizeAttempt
  | spawnDispatch (text : String)
deriving DecidableEq

/-- The spin-wait at the top of the loop body: consumes flag observations,
emitting one `poll` (a 0.1 s sleep) per observation with either flag true,
and stops at the first observation with both flags false.  The second
component is false when the observation sequence ran out before both flags
were seen false (the loop is still waiting: it has not reached capture). -/
def spinWait : List (Bool × Bool) → List LoopEv × Bool
  | [] => ([], false)
  | (s, m) :: rest =>
    if s || m then
      let r := spinWait rest
      (LoopEv.poll :: r.1, r.2)
    else ([], true)

/-- Inputs of one loop iteration: the flag pairs the spin-wait reads, the
state of the audio source, the outcome of a reopen attempt if one is
needed, the capture outcome, the flags re-read after capture, and the
recognition outcome. -/
structure IterInput where
  gateObs : List (Bool × Bool)
  sourceOpen : Bool
  reopenOk : Bool
  cap : CapResult
  postSpeaking : Bool
  postMuted : Bool
  recog : RecogResult

/-- The recognition tail of an iteration: one attempt, spawning a dispatch
thread only when some language attempt returned text. -/
def recogSeq : RecogResult → List LoopEv
  | RecogResult.ok t => [LoopEv.recognizeAttempt, LoopEv.spawnDispatch t]
  | RecogResult.bothFail => [LoopEv.recognizeAttempt]
  | RecogResult.requestError => [LoopEv.recognizeAttempt]
  | RecogResult.otherError => [LoopEv.recognizeAttempt]

/-- Capture and what follows it: `recognizer.listen`, then the critical
post-capture discard check, then recognition; timeouts and capture errors
just continue the loop. -/
def captureSeq (inp : IterInput) : List LoopEv :=
  LoopEv.capture ::
    match inp.cap with
    | CapResult.audio =>
      if inp.postSpeaking || inp.postMuted then [LoopEv.discardAudio]
      else recogSeq inp.recog
    | _ => []

/-- Embedding of one iteration of `LinnyAssistant._listen_loop`: spin-wait,
lazy reopening of a lost audio source (a failed reopen sleeps and starts
the next iteration), capture, the discard check, recognition, dispatch. -/
def listenIter (inp : IterInput) : List LoopEv :=
  let gate := spinWait inp.gateObs
  if !gate.2 then gate.1
  else
    gate.1 ++
      (if !inp.sourceOpen then
        if inp.reopenOk then LoopEv.reopenSource true :: captureSeq inp
        else [LoopEv.reopenSource false]
      else captureSeq inp)

/-! ## Helper lemmas -/

/-- Every event the spin-wait emits is a `poll`. -/
theorem spinWait_mem_poll (obs : List (Bool × Bool)) :
    ∀ e ∈ (spinWait obs).1, e = LoopEv.poll := by
  induction obs with
  | nil => simp [spinWait]
  | cons p rest ih =>
    obtain ⟨s, m⟩ := p
    by_cases hsm : (s || m) = true
    · simpa [spinWait, hsm] using ih
    · simp [spinWait, hsm]

/-- When the spin-wait gets through, the observation sequence consists of a
prefix of either-flag-true readings followed by a reading of (false, false). -/
theorem spinWait_passed (obs : List (Bool × Bool)) (h : (spinWait obs).2 = true) :
    ∃ pre rest, obs = pre ++ (false, false) :: rest ∧
      ∀ p ∈ pre, (p.1 || p.2) = true := by
  induction obs with
  | nil => simp [spinWait] at h
  | cons p rest ih =>
    obtain ⟨s, m⟩ := p
    by_cases hsm : (s || m) = true
    · have h' : (spinWait rest).2 = true := by simpa [spinWait, hsm] using h
      obtain ⟨pre, r, hr, hall⟩ := ih h'
      refine ⟨(s, m) :: pre, r, by simp [hr], ?_⟩
      intro q hq
      rcases List.mem_cons.mp hq with hq | hq
      · simpa [hq] using hsm
      · exact hall q hq
    · have hs : s = false := by cases s <;> simp_all
      have hm : m = false := by cases m <;> simp_all
      exact ⟨[], rest, by simp [hs, hm], by simp⟩

/-- Under flags read true after capture, the capture tail is the capture
event followed, for real audio, by exactly the discard event. -/
theorem captureSeq_post (inp : IterInput)
    (hpost : (inp.postSpeaking || inp.postMuted) = true) :
    captureSeq inp = LoopEv.capture ::
      (if inp.cap = CapResult.audio then [LoopEv.discardAudio] else []) := by
  unfold captureSeq
  cases inp.cap <;> simp [hpost]

/-- Under flags read true after capture, every event of the iteration is a
poll, a reopen, the capture or the discard. -/
theorem listenIter_post_members (inp : IterInput)
    (hpost : (inp.postSpeaking || inp.postMuted) = true) :
    ∀ e ∈ listenIter inp, e = LoopEv.poll ∨ (∃ b, e = LoopEv.reopenSource b) ∨
      e = LoopEv.capture ∨ e = LoopEv.discardAudio := by
  intro e he
  unfold listenIter at he
  by_cases hg : (spinWait inp.gateObs).2 = true
  · simp only [hg, Bool.not_true, Bool.false_eq_true, if_false, List.mem_append] at he
    rcases he with he | he
    · exact Or.inl (spinWait_mem_poll inp.gateObs e he)
    · rw [captureSeq_post inp hpost] at he
      by_cases hs : inp.sourceOpen = true <;>
        by_cases hr : inp.reopenOk = true <;>
          by_cases hc : inp.cap = CapResult.audio <;>
            simp [hs, hr, hc] at he <;>
              rcases he with he | he | he <;> simp_all
  · have hg' : (spinWait inp.gateObs).2 = false := by
      cases hgg : (spinWait inp.gateObs).2 <;> simp_all
    simp only [hg', Bool.not_false, if_true] at he
    exact Or.inl (spinWait_mem_poll inp.gateObs e he)

/-- Counts after one Perplexity step: `p` grows by at most one, the other
counters are untouched. -/
theorem askP_counts (env : BrainEnv) (system : String) (c : Counts) :
    (ask_perplexity env system c).2.p ≤ c.p + 1 ∧
    (ask_perplexity env system c).2.g = c.g ∧
    (ask_perplexity env system c).2.m = c.m := by
  unfold ask_perplexity
  split <;> simp

/-- Counts after the Groq step: `g` grows by at most one, the other
counters are untouched. -/
theorem askG_counts (env : BrainEnv) (system : String) (c : Counts) :
    (askGroq env system c).2.g ≤ c.g + 1 ∧
    (askGroq env system c).2.p = c.p ∧
    (askGroq env system c).2.m = c.m := by
  unfold askGroq
  split <;> simp

/-- Counts after the Gemini step: `m` grows by at most one, the other
counters are untouched. -/
theorem askM_counts (env : BrainEnv) (system : String) (c : Counts) :
    (askGemini env system c).2.m ≤ c.m + 1 ∧
    (askGemini env system c).2.p = c.p ∧
    (askGemini env system c).2.g = c.g := by
  unfold askGemini
  split <;> simp

/-! ## Concrete environments used by counterexamples and witnesses -/

/-- A concrete dispatcher environment for closed evaluations. -/
def envA : DispatchEnv :=
  { timeStr := "07:30 PM", dateStr := "Sunday, October 12, 2025",
    scheduleMsg := "You have no schedule for today.",
    weatherMsg := "It is 30 degrees and clear. Wear sunscreen.",
    brainResponse := "Hello!", setBrightnessOk := true, setColorOk := true,
    screenshotOk := true, youtubeOk := true, appAliases := [], launchOk := true }

/-- A brain environment with a configured Perplexity key whose HTTP calls
all fail, and no Groq or Gemini. -/
def brainEnvPFail : BrainEnv :=
  { perplexityKey := true, groqClient := false, geminiModel := false,
    perplexityOutcome := fun _ _ => Except.error (),
    groqOutcome := fun _ _ => Except.error (),
    geminiOutcome := fun _ _ => Except.error () }

/-- A brain environment with zero backends configured. -/
def brainEnvNone : BrainEnv :=
  { perplexityKey := false, groqClient := false, geminiModel := false,
    perplexityOutcome := fun _ _ => Except.error (),
    groqOutcome := fun _ _ => Except.error (),
    geminiOutcome := fun _ _ => Except.error () }

/-! ## Claims -/

/-- C1, counterexample.  On the input "Linny, pause and play music" the
dispatcher performs the play/resume media rule, speaking "Playing.": the
trace never contains the pause confirmation "Paused.", so the claim that
the pause-category rule is the one that matches is false.  (The keyword
list of the play rule, checked first, contains "play music", which is a
substring of the input.) -/
theorem C1_counterexample :
    executeCommand envA "Linny, pause and play music" =
      [Action.mediaKey "playpause", Action.speak "Playing." Cb.noCb] ∧
    Action.speak "Paused." Cb.noCb ∉
      executeCommand envA "Linny, pause and play music" := by
  constructor
  · rfl
  · decide

/-- C1, amended.  For the input text "Linny, pause and play music",
`execute_command` matches the play/resume-category media rule — the first
media rule in priority order, whose keyword list contains "play music" —
pressing the play-pause media key and speaking the play confirmation
"Playing."; no other category acts and the trace contains no `brain.ask`
call, for every collaborator environment. -/
theorem C1_play_rule_matches (env : DispatchEnv) :
    executeCommand env "Linny, pause and play music" =
      [Action.mediaKey "playpause", Action.speak "Playing." Cb.noCb] := by
  rfl

/-- C2.  In every iteration of the listening loop and for every sequence of
flag observations: (a) the capture event occurs only when the spin-wait got
through the gate, that is, only after the loop read a pair with
`is_speaking = false` and `is_muted = false` (every earlier reading had a
flag true and only produced a sleep poll); and (b) when either flag is
true at the moment the capture completes, the iteration dispatches nothing
and recognizes nothing, and real captured audio is discarded. -/
theorem C2_capture_gate_and_discard (inp : IterInput) :
    (LoopEv.capture ∈ listenIter inp →
      ∃ pre rest, inp.gateObs = pre ++ (false, false) :: rest ∧
        ∀ p ∈ pre, (p.1 || p.2) = true) ∧
    ((inp.postSpeaking || inp.postMuted) = true →
      (∀ t, LoopEv.spawnDispatch t ∉ listenIter inp) ∧
      LoopEv.recognizeAttempt ∉ listenIter inp ∧
      (LoopEv.capture ∈ listenIter inp → inp.cap = CapResult.audio →
        LoopEv.discardAudio ∈ listenIter inp)) := by
  constructor
  · intro hcap
    by_cases hg : (spinWait inp.gateObs).2 = true
    · exact spinWait_passed inp.gateObs hg
    · exfalso
      have hg' : (spinWait inp.gateObs).2 = false := by
        cases hgg : (spinWait inp.gateObs).2 <;> simp_all
      unfold listenIter at hcap
      simp only [hg', Bool.not_false, if_true] at hcap
      exact absurd (spinWait_mem_poll inp.gateObs _ hcap) (by simp)
  · intro hpost
    refine ⟨?_, ?_, ?_⟩
    · intro t hmem
      rcases listenIter_post_members inp hpost _ hmem with h | ⟨b, h⟩ | h | h <;>
        simp_all
    · intro hmem
      rcases listenIter_post_members inp hpost _ hmem with h | ⟨b, h⟩ | h | h <;>
        simp_all
    · intro hcap hcapres
      unfold listenIter at hcap ⊢
      by_cases hg : (spinWait inp.gateObs).2 = true
      · simp only [hg, Bool.not_true, Bool.false_eq_true, if_false,
          List.mem_append] at hcap ⊢
        rcases hcap with hcap | hcap
        · exact absurd (spinWait_mem_poll inp.gateObs _ hcap) (by simp)
        · refine Or.inr ?_
          rw [captureSeq_post inp hpost] at hcap ⊢
          by_cases hs : inp.sourceOpen = true <;>
            by_cases hr : inp.reopenOk = true <;>
              simp_all [hcapres]
      · have hg' : (spinWait inp.gateObs).2 = false := by
          cases hgg : (spinWait inp.gateObs).2 <;> simp_all
        simp only [hg', Bool.not_false, if_true] at hcap
        exact absurd (spinWait_mem_poll inp.gateObs _ hcap) (by simp)

/-- A concrete loop-iteration input: one blocked reading, then the gate
clears, real audio is captured, and speech has restarted by the time the
capture completes. -/
def iterBlockedThenSpeaking : IterInput :=
  { gateObs := [(true, false), (false, false)], sourceOpen := true,
    reopenOk := true, cap := CapResult.audio, postSpeaking := true,
    postMuted := false, recog := RecogResult.ok "linny hello" }

/-- C2, witness: the theorem applied to `iterBlockedThenSpeaking`, with
each hypothesis discharged by evaluation. -/
theorem C2_witness :
    (∃ pre rest, iterBlockedThenSpeaking.gateObs = pre ++ (false, false) :: rest ∧
      ∀ p ∈ pre, (p.1 || p.2) = true) ∧
    (∀ t, LoopEv.spawnDispatch t ∉ listenIter iterBlockedThenSpeaking) ∧
    LoopEv.discardAudio ∈ listenIter iterBlockedThenSpeaking :=
  ⟨(C2_capture_gate_and_discard iterBlockedThenSpeaking).1 (by decide),
   ((C2_capture_gate_and_discard iterBlockedThenSpeaking).2 (by decide)).1,
   ((C2_capture_gate_and_discard iterBlockedThenSpeaking).2 (by decide)).2.2
     (by decide) (by decide)⟩

/-- C3, counterexample.  With a configured Perplexity key whose calls fail
and no other backend, a search-intent query makes `ask` call Perplexity in
the search step and then again as the last resort: two calls to the same
backend within a single `ask` invocation, refuting the claim that no
backend is ever called a second time. -/
theorem C3_counterexample :
    (ask brainEnvPFail "search the latest news" "User" "English").2.p = 2 := by
  rfl

/-- C3, amended.  Within a single `ask` invocation, the general-purpose
backends are each called at most once (Groq at most once, Gemini at most
once); the search-specialized backend is called at most twice, and at most
once when the query is not search-intent — the last-resort Perplexity
attempt is made even when Perplexity was already tried (and failed) in the
search-intent step. -/
theorem C3_amended (env : BrainEnv) (query userName language : String) :
    ((ask env query userName language).2.g ≤ 1 ∧
     (ask env query userName language).2.m ≤ 1 ∧
     (ask env query userName language).2.p ≤ 2) ∧
    (is_search query = false → (ask env query userName language).2.p ≤ 1) := by
  unfold ask
  cases hs : is_search query with
  | false =>
    simp only [hs, Bool.false_eq_true, if_false]
    rcases h2 : askGroq env (systemPrompt userName language) ⟨0, 0, 0⟩ with ⟨o2, c2⟩
    have b2 := askG_counts env (systemPrompt userName language) ⟨0, 0, 0⟩
    rw [h2] at b2
    rcases h3 : askGemini env (systemPrompt userName language) c2 with ⟨o3, c3⟩
    have b3 := askM_counts env (systemPrompt userName language) c2
    rw [h3] at b3
    rcases h4 : ask_perplexity env (systemPrompt userName language) c3 with ⟨o4, c4⟩
    have b4 := askP_counts env (systemPrompt userName language) c3
    rw [h4] at b4
    cases o2 <;> cases o3 <;> cases o4 <;>
      simp_all <;> omega
  | true =>
    simp only [hs, if_true]
    rcases h1 : ask_perplexity env (systemPrompt userName language) ⟨0, 0, 0⟩ with ⟨o1, c1⟩
    have b1 := askP_counts env (systemPrompt userName language) ⟨0, 0, 0⟩
    rw [h1] at b1
    rcases h2 : askGroq env (systemPrompt userName language) c1 with ⟨o2, c2⟩
    have b2 := askG_counts env (systemPrompt userName language) c1
    rw [h2] at b2
    rcases h3 : askGemini env (systemPrompt userName language) c2 with ⟨o3, c3⟩
    have b3 := askM_counts env (systemPrompt userName language) c2
    rw [h3] at b3
    rcases h4 : ask_perplexity env (systemPrompt userName language) c3 with ⟨o4, c4⟩
    have b4 := askP_counts env (systemPrompt userName language) c3
    rw [h4] at b4
    cases o1 <;> cases o2 <;> cases o3 <;> cases o4 <;>
      simp_all <;> omega

/-- C3, witness: the amended theorem at a concrete environment and a
non-search query, with the search-intent hypothesis discharged by
evaluation. -/
theorem C3_witness :
    ((ask brainEnvPFail "hello" "User" "English").2.g ≤ 1 ∧
     (ask brainEnvPFail "hello" "User" "English").2.m ≤ 1 ∧
     (ask brainEnvPFail "hello" "User" "English").2.p ≤ 2) ∧
    (ask brainEnvPFail "hello" "User" "English").2.p ≤ 1 :=
  ⟨(C3_amended brainEnvPFail "hello" "User" "English").1,
   (C3_amended brainEnvPFail "hello" "User" "English").2 (by rfl)⟩

/-- C4, counterexample.  With zero backends configured, `ask` requested in
Tagalog returns the fixed English string "All AI systems are offline.
Please check your API keys." — the very same answer as for English — so
the offline message is not produced in the language requested by the
caller; the language argument only reaches backend preambles, and with
zero backends none is consulted. -/
theorem C4_counterexample :
    (ask brainEnvNone "hello" "User" "Tagalog").1 = offlineMsg ∧
    (ask brainEnvNone "hello" "User" "Tagalog").1 =
      (ask brainEnvNone "hello" "User" "English").1 :=
  ⟨rfl, rfl⟩

/-- C4, amended.  `ask` never raises to its caller (the embedding is total
because every backend exception is caught at its own step — with zero
backends no remote call is even made, as the zero final counts show), and
with zero backends configured it returns the fixed offline message — a
fixed English string, whatever language the caller requested. -/
theorem C4_amended (env : BrainEnv) (query userName language : String)
    (hp : env.perplexityKey = false) (hg : env.groqClient = false)
    (hm : env.geminiModel = false) :
    ask env query userName language = (offlineMsg, ⟨0, 0, 0⟩) := by
  unfold ask ask_perplexity askGroq askGemini
  cases h : is_search query <;> simp [hp, hg, hm, h]

/-- C4, witness: the amended theorem at the zero-backend environment. -/
theorem C4_witness :
    ask brainEnvNone "hello" "User" "English" = (offlineMsg, ⟨0, 0, 0⟩) :=
  C4_amended brainEnvNone "hello" "User" "English" rfl rfl rfl

/-- C5.  In every execution of the `speak` worker body — whatever the
outcomes of `engine.say`, `engine.runAndWait` and the completion callback —
the assignments to `is_speaking` are exactly [true, false] in that order
(so the flag transitions false→true→false exactly once per call), and the
body begins with `_interrupt = False; is_speaking = True; engine.say`, so
the flag is raised before synthesis starts; the clearing assignment lies
in the `finally` part, emitted on the error paths as well. -/
theorem C5_speak_flag_discipline :
    ∀ sayOk waitOk hasCb cbOk : Bool,
      (speakThread sayOk waitOk hasCb cbOk).filter isSetSpeaking =
        [SpeakEv.setSpeaking true, SpeakEv.setSpeaking false] ∧
      (speakThread sayOk waitOk hasCb cbOk).take 3 =
        [SpeakEv.setInterrupt false, SpeakEv.setSpeaking true, SpeakEv.say] := by
  decide

/-- C6.  `VoiceEngine.stop` called when nothing is speaking is a no-op on
the speaking flag: it raises no exception (the embedding is total for both
outcomes of `engine.stop()`, whose exception the source catches) and
`is_speaking` is false afterwards; a repeated call yields the same state
as a single one. -/
theorem C6_stop_noop_idempotent (engineStopOk : Bool) (s : VoiceState)
    (h : s.is_speaking = false) :
    (stop engineStopOk s).is_speaking = false ∧
    stop engineStopOk (stop engineStopOk s) = stop engineStopOk s := by
  simp [stop]

/-- C6, witness: `stop` applied to the idle state. -/
theorem C6_witness :
    (stop true ⟨false, false⟩).is_speaking = false ∧
    stop true (stop true ⟨false, false⟩) = stop true ⟨false, false⟩ :=
  C6_stop_noop_idempotent true ⟨false, false⟩ rfl

/-- C7.  For the recognized text "Linny, what time is it" the dispatcher
trace is exactly one `speak` of "It is {time}." — the time category
matched, `speak` was called exactly once, the spoken string contains the
formatted time (second conjunct), and the trace contains no lights,
calendar, weather, launcher, media or OS action and no `brain.ask`, for
every collaborator environment. -/
theorem C7_time_query (env : DispatchEnv) :
    executeCommand env "Linny, what time is it" =
      [Action.speak ("It is " ++ env.timeStr ++ ".") Cb.noCb] ∧
    ∃ pre post, "It is " ++ env.timeStr ++ "." = pre ++ env.timeStr ++ post :=
  ⟨rfl, "It is ", ".", rfl⟩

/-- Shape of every `_launch_app` trace: mute, one launch attempt, one
speech with the unmuting callback. -/
theorem launchApp_shape (env : DispatchEnv) (app_name : String) :
    ∃ t s,
      launchApp env app_name =
        [Action.setMuted true, Action.openUrl t,
         Action.speak s Cb.postLaunchUnmute] ∨
      launchApp env app_name =
        [Action.setMuted true, Action.openFile t,
         Action.speak s Cb.postLaunchUnmute] ∨
      launchApp env app_name =
        [Action.setMuted true, Action.shellRun t,
         Action.speak s Cb.postLaunchUnmute] := by
  unfold launchApp
  dsimp only
  split_ifs <;>
    first
      | exact ⟨_, _, Or.inl rfl⟩
      | exact ⟨_, _, Or.inr (Or.inl rfl)⟩
      | exact ⟨_, _, Or.inr (Or.inr rfl)⟩

/-- C8.  For every environment and application name, `_launch_app` begins
by setting the mute flag — before any launch attempt and before any
speech; the trace never clears the mute flag itself; every `speak` it
issues (on every path of the three-case logic, the launch-failure path
included) carries the `_post_launch_unmute` completion callback, and at
least one such `speak` is always issued; and the callback body is the
fixed cooldown sleep followed by clearing the mute flag, so the flag is
cleared only via speech completion after the cooldown. -/
theorem C8_launch_mute_discipline (env : DispatchEnv) (app_name : String) :
    (∃ rest, launchApp env app_name = Action.setMuted true :: rest) ∧
    Action.setMuted false ∉ launchApp env app_name ∧
    (∀ s c, Action.speak s c ∈ launchApp env app_name →
      c = Cb.postLaunchUnmute) ∧
    (∃ s, Action.speak s Cb.postLaunchUnmute ∈ launchApp env app_name) ∧
    post_launch_unmute = [Action.sleepCooldown, Action.setMuted false] := by
  obtain ⟨t, s0, hshape⟩ := launchApp_shape env app_name
  refine ⟨⟨_, rfl⟩, ?_, ?_, ?_, rfl⟩
  · rcases hshape with h | h | h <;> rw [h] <;> simp
  · intro s c hmem
    rcases hshape with h | h | h <;> rw [h] at hmem <;> simp_all
  · rcases hshape with h | h | h <;> exact ⟨s0, by rw [h]; simp⟩

/-- C8, witness: the theorem at a concrete environment and app name, with
the membership hypothesis of the callback-uniformity conjunct discharged
by evaluation. -/
theorem C8_witness :
    (∃ rest, launchApp envA "notepad" = Action.setMuted true :: rest) ∧
    Action.setMuted false ∉ launchApp envA "notepad" ∧
    Cb.postLaunchUnmute = Cb.postLaunchUnmute ∧
    (∃ s, Action.speak s Cb.postLaunchUnmute ∈ launchApp envA "notepad") ∧
    post_launch_unmute = [Action.sleepCooldown, Action.setMuted false] :=
  ⟨(C8_launch_mute_discipline envA "notepad").1,
   (C8_launch_mute_discipline envA "notepad").2.1,
   (C8_launch_mute_discipline envA "notepad").2.2.1 "Opening notepad."
     Cb.postLaunchUnmute (by decide),
   (C8_launch_mute_discipline envA "notepad").2.2.2.1,
   (C8_launch_mute_discipline envA "notepad").2.2.2.2⟩

/-- C9.  Every brightness command `LightManager.set_brightness` sends to
the bulb carries a level clamped to the range 0 to 100, whatever numeric
level was requested and whatever the connection, module and send outcomes
are. -/
theorem C9_brightness_clamped (connected hasModule sendOk : Bool) (level : Int)
    (n : Int) (h : BulbCmd.setBrightness n ∈ (set_brightness connected hasModule sendOk level).2) :
    0 ≤ n ∧ n ≤ 100 := by
  unfold set_brightness at h
  split at h
  · simp at h
  · split at h
    · simp at h
    · split at h <;> simp at h <;> omega

/-- C9, witness: requesting level 250 commands the clamped level 100. -/
theorem C9_witness : (0 : Int) ≤ 100 ∧ (100 : Int) ≤ 100 :=
  C9_brightness_clamped true true true 250 100 (by decide)

/-- C10.  `toggle_mute` returns the new value of the flag, that value is
the negation of the old one, and toggling twice restores the original
flag: the operation is an involution that reports its result. -/
theorem C10_toggle_involution (b : Bool) :
    (toggle_mute b).2 = !b ∧ (toggle_mute b).1 = (toggle_mute b).2 ∧
    (toggle_mute (toggle_mute b).1).1 = b := by
  cases b <;> simp [toggle_mute]

end Linny
